import Mathlib

/-!
Shallow embedding of `src/lib/pandasai-loader.py`: the WebLLM inference
bridge (`WebLLM.call`, `WebLLM.__init__`) and the three monkey-patched
Agent lifecycle wrappers (`patched_generate_code`, `patched_execute_code`,
`patched_regenerate_code_after_error`), together with the failure-context
recovery chain inlined in the regeneration wrapper.

Python exceptions are modelled by `PyExc` (type name, message, optional
traceback text, optional chained cause); fallible attribute access
(`getattr`) is modelled by ` GetAttr`, so that an attribute whose lookup
itself raises can be represented.  Fallible computation is `Except PyExc`.
Console `print` calls in the source are pure logging and are not modelled;
`postProgress` event emission is modelled by accumulating `Event` values.
-/

namespace PandasaiLoader

/-- One role/content pair produced by `context.memory.to_openai_messages()`. -/
structure Message where
  role : String
  content : String
deriving Repr, DecidableEq

/-- Rendering of one memory entry inside the list comprehension at line 285
of the source: the f-string with role, a colon-space, and content. -/
def renderMessage (m : Message) : String :=
  m.role ++ ": " ++ m.content

/-- The prompt construction of `WebLLM.call` (lines 279-286).  `history` is
`none` when `context` is falsy, has no `memory` attribute, or the memory is
falsy; otherwise it holds the list returned by `to_openai_messages()`.  The
inner `if memory_messages:` makes an empty list leave the prompt untouched. -/
def buildPrompt (instruction : String) (history : Option (List Message)) : String :=
  match history with
  | none => instruction
  | some msgs =>
    if msgs.isEmpty then instruction
    else String.intercalate "\n" (msgs.map renderMessage) ++ "\n\nuser: " ++ instruction

/-- Errors that can escape `WebLLM.call`: either the scheduler-misuse error
(CPython raises RuntimeError when `run_until_complete` is entered while the
loop is already running) or an error propagated from the host-side
`webllmChat` call, carrying its kind unchanged. -/
inductive BridgeErr where
  | loopAlreadyRunning : BridgeErr
  | host (kind : String) : BridgeErr
deriving Repr, DecidableEq

/-- Models asyncio semantics of `loop.run_until_complete` (line 302): if the
loop is already running it raises the loop-already-running RuntimeError;
otherwise it drives the coroutine, returning the host result or propagating
the host error unchanged. -/
def run_until_complete (loopRunning : Bool) (hostResult : Except String String) :
    Except BridgeErr String :=
  if loopRunning then Except.error BridgeErr.loopAlreadyRunning
  else hostResult.mapError BridgeErr.host

/-- Models `pyodide.ffi.run_sync` (line 300): synchronously re-enters the
already-running scheduler and waits for the promise, returning its value or
propagating its rejection unchanged. -/
def run_sync (hostResult : Except String String) : Except BridgeErr String :=
  hostResult.mapError BridgeErr.host

/-- Models Python `str(...)` applied to the string crossing the JS boundary
(line 304): the identity on strings. -/
def pyStr (s : String) : String := s

/-- Embedding of `WebLLM.call` (lines 272-304).  `loopRunning` is `loop.is_running()`;
`host` is the `webllmChat` JS function, mapping a prompt to either a result
string or a rejection kind.  The mode selection at lines 298-302 picks
`run_sync` when a loop is running and `run_until_complete` otherwise. -/
def WebLLM.call (loopRunning : Bool) (host : String → Except String String)
    (instruction : String) (history : Option (List Message)) :
    Except BridgeErr String :=
  let prompt := buildPrompt instruction history
  let result :=
    if loopRunning then run_sync (host prompt)
    else run_until_complete loopRunning (host prompt)
  result.map pyStr

/-- Result of a Python attribute access that may itself raise (a property
whose getter throws): either the value, or the type name and message of the
raised exception. -/
inductive GetAttr (α : Type) where
  | ok (a : α) : GetAttr α
  | raises (ty msg : String) : GetAttr α
deriving Repr

/-- A Python exception object as the instrumentation observes it: its type
name, its `str(...)` rendering, its `__traceback__` attribute (an opaque
traceback rendered to text when formatted) and its `__cause__` attribute
(the chained underlying exception).  Both attributes are fallible. -/
inductive PyExc where
  | mk (ty msg : String) (tb : GetAttr (Option String)) (cause : GetAttr (Option PyExc)) : PyExc

/-- Type name of the exception (`type(e).__name__`). -/
def PyExc.ty : PyExc → String
  | .mk t _ _ _ => t

/-- Message of the exception (`str(e)`). -/
def PyExc.msg : PyExc → String
  | .mk _ m _ _ => m

/-- A plain exception whose attribute accesses succeed and yield nothing. -/
def PyExc.plain (ty msg : String) : PyExc :=
  .mk ty msg (.ok none) (.ok none)

/-- Models `getattr(e, "__traceback__", None)`: returns the attribute or
raises the exception the descriptor threw. -/
def getattr_tb (e : PyExc) : Except PyExc (Option String)  :=
  match e with
  | .mk _ _ tb _ =>
    match tb with
    | .ok v => Except.ok v
    | .raises ty msg => Except.error (PyExc.plain ty msg)

/-- Models `getattr(e, "__cause__", None)`: returns the attribute or raises
the exception the descriptor threw. -/
def getattr_cause (e : PyExc) : Except PyExc (Option PyExc) :=
  match e with
  | .mk _ _ _ c =>
    match c with
    | .ok v => Except.ok v
    | .raises ty msg => Except.error (PyExc.plain ty msg)

/-- Models `traceback.format_exc()` called inside an `except` block for the
in-flight exception `e` (line 350): the standard header followed by the
final type-and-message line.  Always a non-empty string. -/
def format_exc (e : PyExc) : String :=
  "Traceback (most recent call last):\n" ++ e.ty ++ ": " ++ e.msg

/-- Models `"".join(traceback.format_exception(ty, value, tb_obj))` for an
exception with type name `ty`, message `msg` and traceback text `tbText`.
Always a non-empty string. -/
def format_exception (ty msg tbText : String) : String :=
  "Traceback (most recent call last):\n" ++ tbText ++ "\n" ++ ty ++ ": " ++ msg

/-- One progress notification, as passed to `postProgress(tag, detail)`. -/
structure Event where
  tag : String
  detail : Option String := none
deriving Repr, DecidableEq

/-- Observable actions a wrapper performs, in order: writing the
`last_execution_traceback` slot, emitting a progress event, and invoking the
wrapped original method. -/
inductive Action where
  | setSlot (v : Option String) : Action
  | emit (e : Event) : Action
  | callDelegate : Action
deriving Repr

/-- The events among a list of actions, in order. -/
def eventsOf (as : List Action) : List Event :=
  as.filterMap fun a =>
    match a with
    | .emit e => some e
    | _ => none

/-- Event tags among a list of actions, in order. -/
def tagsOf (as : List Action) : List String :=
  (eventsOf as).map Event.tag

/-- Value of the `last_execution_traceback` slot after running the actions
from an initial slot value. -/
def slotAfter (init : Option String) (as : List Action) : Option String :=
  as.foldl
    (fun s a =>
      match a with
      | .setSlot v => v
      | _ => s)
    init

/-- Number of delegate invocations among the actions. -/
def delegateCalls (as : List Action) : Nat :=
  (as.filter fun a =>
    match a with
    | .callDelegate => true
    | _ => false).length

/-- Embedding of `patched_generate_code` (lines 330-335): emit `generating_code`, call
the original `generate_code`, and only after it returns emit
`code_generated`; the delegate result (or its exception) passes through
unmodified. -/
def patched_generate_code (delegate : Except PyExc α) : Except PyExc α × List Action :=
  (delegate,
    [Action.emit ⟨"generating_code", none⟩, Action.callDelegate] ++
      match delegate with
      | .ok _ => [Action.emit ⟨"code_generated", none⟩]
      | .error _ => [])

/-- Embedding of `patched_execute_code` (lines 337-362): first reset the
`last_execution_traceback` slot to `None` (line 341), emit `executing_code`,
call the original `execute_code`; on success emit `code_executed`, on
failure capture `traceback.format_exc()` into the slot and re-raise the
original exception unmodified (a bare `raise`).  The console prints at lines
353-361 are logging only and are not modelled. -/
def patched_execute_code (delegate : Except PyExc α) : Except PyExc α × List Action :=
  (delegate,
    [Action.setSlot none, Action.emit ⟨"executing_code", none⟩, Action.callDelegate] ++
      match delegate with
      | .ok _ => [Action.emit ⟨"code_executed", none⟩]
      | .error e => [Action.setSlot (some (format_exc e))])

/-- Python truthiness of an optional string: `None` and the empty string are
falsy, every other string is truthy. -/
def truthyOpt (s : Option String) : Bool :=
  match s with
  | none => false
  | some t => !t.isEmpty

/-- The triple returned by `sys.exc_info()` when an exception is being
handled: type name, message, and the traceback component (which is what the
guard `if exc_tb:` tests). -/
structure ExcInfo where
  ty : String
  msg : String
  tb : Option String
deriving Repr

/-- Models a Python `try: ... except Exception as e: ...` block: run the
body; on an exception, apply the handler to it. -/
def pyTry (body : Except PyExc α) (handler : PyExc → α) : α :=
  match body with
  | .ok a => a
  | .error e => handler e

/-- Body of the Method 3 `try` block (lines 399-405): read `__cause__` from
the error; if a cause is present, read its `__traceback__`; if that is
present, format the cause with it.  Returns the formatted trace together
with its debug line, or `none` if a guard failed. -/
def method3body (e : PyExc) : Except PyExc (Option (String × String)) := do
  let cause ← getattr_cause e
  match cause with
  | none => return none
  | some c =>
    let tb ← getattr_tb c
    match tb with
    | none => return none
    | some t =>
      return some (format_exception c.ty c.msg t,
        "Source: error.__cause__ (" ++ c.ty ++ ")")

/-- Body of the Method 4 `try` block (lines 411-415): read the error object
its own `__traceback__`; if present, format the error with it. -/
def method4body (e : PyExc) : Except PyExc (Option (String × String)) := do
  let tb ← getattr_tb e
  match tb with
  | none => return none
  | some t =>
    return some (format_exception e.ty e.msg t,
      "Source: error.__traceback__ (" ++ e.ty ++ ")")

/-- The five-source traceback recovery chain inlined in
`patched_regenerate_code_after_error` (lines 378-422).  `slot` is the
`last_execution_traceback[0]` closure variable, `ambient` the
`sys.exc_info()` state, `error` the error argument (`None` or an exception).
Each later method runs only while `traceback_str` is still falsy; the
`try`/`except` blocks around Methods 3 and 4 turn a raising attribute into a
debug note instead of an escaping exception.  Returns the recovered
`traceback_str` and the accumulated `debug_info` lines. -/
def recover_traceback (slot : Option String) (ambient : Option ExcInfo)
    (error : Option PyExc) : Option String × List String :=
  -- Method 1: the slot captured by the execute wrapper (lines 383-385)
  let st1 : Option String × List String :=
    if truthyOpt slot then (slot, ["Source: captured from execute_code"]) else (none, [])
  -- Method 2: sys.exc_info(), used only when its traceback part is present
  -- (lines 388-395)
  let st2 : Option String × List String :=
    if truthyOpt st1.1 then st1
    else
      match ambient with
      | some i =>
        match i.tb with
        | some t => (some (format_exception i.ty i.msg t), st1.2 ++ ["Source: sys.exc_info()"])
        | none => st1
      | none => st1
  -- Method 3: the chained cause of the error object (lines 398-407)
  let st3 : Option String × List String :=
    if truthyOpt st2.1 then st2
    else
      match error with
      | none => st2
      | some e =>
        pyTry
          (do
            let r ← method3body e
            match r with
            | none => return st2
            | some (tb, dbg) => return (some tb, st2.2 ++ [dbg]))
          (fun ex => (st2.1, st2.2 ++ ["__cause__ failed: " ++ ex.msg]))
  -- Method 4: the error object its own traceback (lines 410-417)
  let st4 : Option String × List String :=
    if truthyOpt st3.1 then st3
    else
      match error with
      | none => st3
      | some e =>
        pyTry
          (do
            let r ← method4body e
            match r with
            | none => return st3
            | some (tb, dbg) => return (some tb, st3.2 ++ [dbg]))
          (fun ex => (st3.1, st3.2 ++ ["__traceback__ failed: " ++ ex.msg]))
  -- Method 5: the bare type-and-message rendering (lines 420-422)
  if truthyOpt st4.1 then st4
  else
    match error with
    | none => st4
    | some e =>
      (some (e.ty ++ ": " ++ e.msg),
        st4.2 ++ ["Source: str(error) only - no traceback available"])

/-- Assembly of `error_detail` from `error_parts` (lines 370-436): the
attempted code section when `code` is truthy, the `ERROR:` section holding
the recovered trace or the literal `Unknown error`, and the debug section
when any debug line was recorded, all joined by newlines. -/
def mkErrorDetail (code : Option String) (tbStr : Option String)
    (debugInfo : List String) : String :=
  let parts :=
    (if truthyOpt code then ["CODE:", code.getD "", ""] else []) ++
      ["ERROR:", if truthyOpt tbStr then tbStr.getD "" else "Unknown error"] ++
      (if debugInfo.isEmpty then []
       else ["", "[Debug: " ++ String.intercalate "; " debugInfo ++ "]"])
  String.intercalate "\n" parts

/-- Embedding of `patched_regenerate_code_after_error` (lines 364-446): recover a
traceback through the five-source chain, assemble `error_detail`, emit
`fixing_error` with it, then call the original
`_regenerate_code_after_error` and pass its result (or its exception)
through unmodified; no retry is performed — the delegate is invoked exactly
once.  The console prints at lines 439-443 are logging only. -/
def patched_regenerate_code_after_error (delegate : Except PyExc α)
    (code : Option String) (error : Option PyExc) (slot : Option String)
    (ambient : Option ExcInfo) : Except PyExc α × List Action :=
  let (tbStr, debugInfo) := recover_traceback slot ambient error
  let detail := mkErrorDetail code tbStr debugInfo
  (delegate, [Action.emit ⟨"fixing_error", some detail⟩, Action.callDelegate])

/-- The `fixing_error` payload produced by the regeneration wrapper for
given inputs. -/
def regenDetail (code : Option String) (error : Option PyExc)
    (slot : Option String) (ambient : Option ExcInfo) : String :=
  let (tbStr, debugInfo) := recover_traceback slot ambient error
  mkErrorDetail code tbStr debugInfo

/-- Modelled from the spec: the query-answering cycle orchestration lives in
the external pandasai library, not in this repository; section 2 of the spec
gives its control flow: generate code, then execute it; on success the cycle
ends, on failure the library regenerates (possibly retrying regeneration
internally, one `fixing_error` per attempt).  `genD` is the generation
delegate, `execD` the execution delegate for the generated code, and
`regenD` the delegates of the successive regeneration attempts after a
failure (empty when execution succeeds on the first try). -/
def cycleActions (genD : Except PyExc String) (execD : String → Except PyExc String)
    (regenD : List (Except PyExc String)) (ambient : Option ExcInfo) : List Action :=
  let (gres, gacts) := patched_generate_code genD
  match gres with
  | .error _ => gacts
  | .ok c =>
    let (eres, eacts) := patched_execute_code (execD c)
    match eres with
    | .ok _ => gacts ++ eacts
    | .error e =>
      let slot := some (format_exc e)
      let racts := regenD.map fun d =>
        (patched_regenerate_code_after_error d (some c) (some e) slot ambient).2
      gacts ++ eacts ++ racts.flatten

/-- A Python value stored in an attribute: a string, a number (the float
temperature is stored and compared, never computed with, so an integer
token models its default), or a bound method. -/
inductive PyVal where
  | vstr (s : String) : PyVal
  | vnum (n : Int) : PyVal
  | vfun (name : String) : PyVal
deriving Repr, DecidableEq

/-- The settable attributes of a freshly constructed `WebLLM` instance as
the class body declares them (lines 262-304): the `model` and `temperature`
class attributes with their defaults, and the `call` method. -/
def webllmClassAttrs : List (String × PyVal) :=
  [("model", PyVal.vstr "Hermes-3-Llama-3.1-8B-q4f16_1-MLC"),
   ("temperature", PyVal.vnum 0),
   ("call", PyVal.vfun "call")]

/-- The read-only properties of `WebLLM`: the `type` property (lines
306-308) has a getter and no setter. -/
def webllmReadOnlyProps : List String := ["type"]

/-- Whether an attribute dictionary has an entry for a name. -/
def hasKey (k : String) : List (String × PyVal) → Bool
  | [] => false
  | kv :: rest => kv.1 == k || hasKey k rest

/-- Models `hasattr(self, key)` on a `WebLLM` instance with current
settable attributes `attrs`: true for settable attributes and for the
read-only `type` property alike. -/
def pyHasattr (attrs : List (String × PyVal)) (k : String) : Bool :=
  hasKey k attrs || webllmReadOnlyProps.contains k

/-- Replace the value of the first entry with the given name, or append a
new entry when none exists. -/
def attrSet (k : String) (v : PyVal) : List (String × PyVal) → List (String × PyVal)
  | [] => [(k, v)]
  | kv :: rest => if kv.1 == k then (kv.1, v) :: rest else kv :: attrSet k v rest

/-- Look up an attribute value by name. -/
def attrLookup (k : String) : List (String × PyVal) → Option PyVal
  | [] => none
  | kv :: rest => if kv.1 == k then some kv.2 else attrLookup k rest

/-- Models `setattr(self, key, value)` on a `WebLLM` instance: assigning to
a property that has no setter raises `AttributeError`; otherwise the
attribute is overwritten. -/
def pySetattr (attrs : List (String × PyVal)) (k : String) (v : PyVal) :
    Except PyExc (List (String × PyVal)) :=
  if webllmReadOnlyProps.contains k then
    Except.error (PyExc.plain "AttributeError"
      ("property " ++ k ++ " of WebLLM object has no setter"))
  else Except.ok (attrSet k v attrs)

/-- Embedding of `WebLLM.__init__` (lines 266-270): after `super().__init__()`, iterate
over the keyword arguments and, for each key the instance already has an
attribute for, assign it with `setattr`; other keys are skipped.  Keyword
arguments form a Python dict, so their names are distinct; the fold
processes them in iteration order. -/
def WebLLM.init (kwargs : List (String × PyVal)) :
    Except PyExc (List (String × PyVal)) :=
  kwargs.foldlM
    (fun attrs kv =>
      if pyHasattr attrs kv.1 then pySetattr attrs kv.1 kv.2
      else Except.ok attrs)
    webllmClassAttrs

/-- First value bound to a keyword in a keyword-argument list (the only
value, when names are distinct). -/
def kwLookup (k : String) (kwargs : List (String × PyVal)) : Option PyVal :=
  attrLookup k kwargs

/-- Whether the `sys.exc_info()` state carries a traceback component. -/
def hasAmbientTb (a : Option ExcInfo) : Bool :=
  match a with
  | some i => i.tb.isSome
  | none => false

/-- Whether a keyword names one of the settable attributes of a fresh
`WebLLM` instance. -/
def webllmSettable (k : String) : Bool :=
  hasKey k webllmClassAttrs

lemma append_ne_empty_left (a b : String) (h : a ≠ "") : a ++ b ≠ "" := by
  intro hab
  apply h
  have hd : a.data ++ b.data = ([] : List Char) := by
    have := congrArg String.data hab
    simpa using this
  exact String.ext (List.append_eq_nil.mp hd).1

lemma append_ne_empty_right (a b : String) (h : b ≠ "") : a ++ b ≠ "" := by
  intro hab
  apply h
  have hd : a.data ++ b.data = ([] : List Char) := by
    have := congrArg String.data hab
    simpa using this
  exact String.ext (List.append_eq_nil.mp hd).2

lemma truthyOpt_of_ne_empty (s : String) (h : s ≠ "") : truthyOpt (some s) = true := by
  have : s.isEmpty = false := by
    cases he : s.isEmpty
    · rfl
    · exact absurd ((String.isEmpty_iff s).mp he) h
  simp [truthyOpt, this]

lemma format_exc_ne_empty (e : PyExc) : format_exc e ≠ "" := by
  unfold format_exc
  exact append_ne_empty_left _ _ (append_ne_empty_left _ _
    (append_ne_empty_left _ _ (by decide)))

lemma isEmpty_format_exc (e : PyExc) : (format_exc e).isEmpty = false := by
  cases he : (format_exc e).isEmpty
  · rfl
  · exact absurd ((String.isEmpty_iff _).mp he) (format_exc_ne_empty e)

lemma format_exception_ne_empty (ty msg tbText : String) :
    format_exception ty msg tbText ≠ "" := by
  unfold format_exception
  exact append_ne_empty_left _ _ (append_ne_empty_left _ _ (append_ne_empty_left _ _
    (append_ne_empty_left _ _ (append_ne_empty_left _ _ (by decide)))))

lemma truthy_format_exception (ty msg tbText : String) :
    truthyOpt (some (format_exception ty msg tbText)) = true :=
  truthyOpt_of_ne_empty _ (format_exception_ne_empty ty msg tbText)

lemma ty_msg_ne_empty (ty msg : String) : ty ++ ": " ++ msg ≠ "" :=
  append_ne_empty_left _ _ (append_ne_empty_right _ _ (by decide))

lemma intercalate_go_eq (s : String) (l : List String) : ∀ acc : String,
    String.intercalate.go acc s l = l.foldl (fun r x => r ++ s ++ x) acc := by
  induction l with
  | nil => intro acc; rfl
  | cons a as ih => intro acc; simp [String.intercalate.go, ih]

lemma foldl_append_pre (s : String) (l : List String) : ∀ A B : String,
    l.foldl (fun r x => r ++ s ++ x) (A ++ B) =
      A ++ l.foldl (fun r x => r ++ s ++ x) B := by
  induction l with
  | nil => intro A B; rfl
  | cons x t ih =>
    intro A B
    simp only [List.foldl_cons]
    rw [String.append_assoc A B s, String.append_assoc A (B ++ s) x, ih]

lemma intercalate_cons_cons (s a : String) (l : List String) (h : l ≠ []) :
    String.intercalate s (a :: l) = a ++ s ++ String.intercalate s l := by
  cases l with
  | nil => exact absurd rfl h
  | cons x t =>
    show String.intercalate.go a s (x :: t) = a ++ s ++ String.intercalate.go x s t
    rw [intercalate_go_eq, intercalate_go_eq]
    simp only [List.foldl_cons]
    exact foldl_append_pre s t (a ++ s) x

lemma intercalate_append_pair (s x y : String) (l : List String) (h : l ≠ []) :
    String.intercalate s (l ++ [x, y]) =
      String.intercalate s l ++ s ++ x ++ s ++ y := by
  induction l with
  | nil => exact absurd rfl h
  | cons a t ih =>
    cases t with
    | nil =>
      show String.intercalate s (a :: [x, y]) = _
      rw [intercalate_cons_cons s a [x, y] (by simp),
        intercalate_cons_cons s x [y] (by simp)]
      show a ++ s ++ (x ++ s ++ String.intercalate.go y s []) =
        String.intercalate.go a s [] ++ s ++ x ++ s ++ y
      show a ++ s ++ (x ++ s ++ y) = a ++ s ++ x ++ s ++ y
      simp [String.append_assoc]
    | cons b u =>
      show String.intercalate s (a :: ((b :: u) ++ [x, y])) = _
      rw [intercalate_cons_cons s a ((b :: u) ++ [x, y]) (by simp),
        ih (by simp), intercalate_cons_cons s a (b :: u) (by simp)]
      simp [String.append_assoc]

/-- C1: for every inference request and every mocked host response, the
bridge call returns the same result whether or not a cooperative scheduler
is already running; neither path produces the loop-already-running error,
and a host-call error propagates with its kind unchanged on both paths. -/
theorem c1_bridge_mode_equivalence (host : String → Except String String)
    (instruction : String) (history : Option (List Message)) :
    (∀ b₁ b₂ : Bool,
      WebLLM.call b₁ host instruction history = WebLLM.call b₂ host instruction history) ∧
    (∀ b : Bool,
      WebLLM.call b host instruction history ≠ Except.error BridgeErr.loopAlreadyRunning) ∧
    (∀ (b : Bool) (k : String), host (buildPrompt instruction history) = Except.error k →
      WebLLM.call b host instruction history = Except.error (BridgeErr.host k)) ∧
    (∀ (b : Bool) (r : String), host (buildPrompt instruction history) = Except.ok r →
      WebLLM.call b host instruction history = Except.ok r) := by
  have hcall : ∀ b : Bool, WebLLM.call b host instruction history =
      (host (buildPrompt instruction history)).mapError BridgeErr.host := by
    intro b
    cases b <;> cases hh : host (buildPrompt instruction history) <;>
      simp [WebLLM.call, run_sync, run_until_complete, pyStr, hh, Except.map,
        Except.mapError]
  refine ⟨fun b₁ b₂ => by rw [hcall b₁, hcall b₂], fun b => ?_, fun b k hk => ?_,
    fun b r hr => ?_⟩
  · rw [hcall b]
    cases host (buildPrompt instruction history) <;> simp [Except.mapError]
  · rw [hcall b, hk]; rfl
  · rw [hcall b, hr]; rfl

/-- Witness for C1 at a concrete failing host call: the host error kind
propagates unchanged through the in-loop path. -/
theorem c1_bridge_witness :
    WebLLM.call true (fun _ => Except.error "engine unavailable") "plot sales" none =
      Except.error (BridgeErr.host "engine unavailable") :=
  (c1_bridge_mode_equivalence (fun _ => Except.error "engine unavailable")
    "plot sales" none).2.2.1 true "engine unavailable" rfl

/-- C2: with an absent or empty history the outbound prompt is exactly the
rendered instruction; with a non-empty history it is exactly the entries
rendered as role-colon-content lines in order, a blank line, and the user
line, all joined by newlines. -/
theorem c2_prompt_construction (instruction : String) (ms : List Message)
    (h : ms ≠ []) :
    buildPrompt instruction none = instruction ∧
    buildPrompt instruction (some []) = instruction ∧
    buildPrompt instruction (some ms) =
      String.intercalate "\n"
        (ms.map renderMessage ++ ["", "user: " ++ instruction]) := by
  refine ⟨rfl, rfl, ?_⟩
  have hmap : ms.map renderMessage ≠ [] := by
    cases ms with
    | nil => exact absurd rfl h
    | cons a t => simp
  have hne : ms.isEmpty = false := by
    cases ms with
    | nil => exact absurd rfl h
    | cons a t => rfl
  rw [intercalate_append_pair _ _ _ _ hmap]
  have hbp : buildPrompt instruction (some ms) =
      String.intercalate "\n" (ms.map renderMessage) ++ "\n\nuser: " ++ instruction := by
    simp [buildPrompt, hne]
  rw [hbp]
  simp only [String.append_assoc, String.empty_append]
  congr 1

/-- Witness for C2 at a concrete one-entry history. -/
theorem c2_prompt_witness :
    buildPrompt "describe df" (some [⟨"assistant", "done"⟩]) =
      String.intercalate "\n" ["assistant: done", "", "user: describe df"] :=
  (c2_prompt_construction "describe df" [⟨"assistant", "done"⟩] (by simp)).2.2

/-- C9: the bridge never fabricates a result: a host failure surfaces as an
error of the same kind, a returned string is exactly the host string, and
the call succeeds exactly when the host call does. -/
theorem c9_failure_surfaces_as_error (b : Bool) (host : String → Except String String)
    (instruction : String) (history : Option (List Message)) :
    (∀ k : String, host (buildPrompt instruction history) = Except.error k →
      WebLLM.call b host instruction history = Except.error (BridgeErr.host k)) ∧
    (∀ r : String, WebLLM.call b host instruction history = Except.ok r →
      host (buildPrompt instruction history) = Except.ok r) ∧
    (WebLLM.call b host instruction history).isOk =
      (host (buildPrompt instruction history)).isOk := by
  have hcall : WebLLM.call b host instruction history =
      (host (buildPrompt instruction history)).mapError BridgeErr.host := by
    cases b <;> cases hh : host (buildPrompt instruction history) <;>
      simp [WebLLM.call, run_sync, run_until_complete, pyStr, hh, Except.map,
        Except.mapError]
  rw [hcall]
  cases host (buildPrompt instruction history) <;>
    simp [Except.mapError, Except.isOk, Except.toBool]

/-- Witness for C9 at a concrete rejecting host: the failure arrives as an
error, not as a string. -/
theorem c9_failure_witness :
    WebLLM.call false (fun _ => Except.error "inference timeout") "sum col" none =
      Except.error (BridgeErr.host "inference timeout") :=
  (c9_failure_surfaces_as_error false (fun _ => Except.error "inference timeout")
    "sum col" none).1 "inference timeout" rfl

/-- C8: the generate wrapper emits `generating_code` before the delegate,
emits `code_generated` only after the delegate returns, passes the result
or the exception through unchanged, and calls the delegate exactly once. -/
theorem c8_generate_wrapper {α : Type} (d : Except PyExc α) :
    (patched_generate_code d).1 = d ∧
    delegateCalls (patched_generate_code d).2 = 1 ∧
    tagsOf (patched_generate_code d).2 =
      (match d with
       | .ok _ => ["generating_code", "code_generated"]
       | .error _ => ["generating_code"]) := by
  cases d <;> exact ⟨rfl, rfl, rfl⟩

/-- C3: the execute wrapper resets the trace slot as its very first action;
on success it leaves the slot empty and returns the result unchanged, on
failure it stores the non-empty formatted trace of the in-flight exception
and re-raises the original error object unchanged. -/
theorem c3_execute_wrapper {α : Type} (d : Except PyExc α) (s₀ : Option String) :
    (patched_execute_code d).1 = d ∧
    (∃ rest, (patched_execute_code d).2 = Action.setSlot none :: rest) ∧
    (∀ a : α, d = Except.ok a → slotAfter s₀ (patched_execute_code d).2 = none) ∧
    (∀ e : PyExc, d = Except.error e →
      slotAfter s₀ (patched_execute_code d).2 = some (format_exc e) ∧
      (format_exc e).isEmpty = false) ∧
    tagsOf (patched_execute_code d).2 =
      (match d with
       | .ok _ => ["executing_code", "code_executed"]
       | .error _ => ["executing_code"]) := by
  cases d with
  | ok a =>
    exact ⟨rfl, ⟨_, rfl⟩, fun _ _ => rfl, fun e he => Except.noConfusion he, rfl⟩
  | error e =>
    refine ⟨rfl, ⟨_, rfl⟩, fun a ha => Except.noConfusion ha, fun e2 he => ?_, rfl⟩
    have heq : e = e2 := by injection he
    subst heq
    exact ⟨rfl, isEmpty_format_exc e⟩

/-- Witness for C3 at a concrete injected failure: the slot holds the
non-empty trace of that failure even though it held stale text before. -/
theorem c3_execute_witness :
    slotAfter (some "stale")
        (@patched_execute_code Nat (Except.error (PyExc.plain "ValueError" "bad value"))).2 =
      some (format_exc (PyExc.plain "ValueError" "bad value")) :=
  ((c3_execute_wrapper (Except.error (PyExc.plain "ValueError" "bad value"))
    (some "stale")).2.2.2.1 (PyExc.plain "ValueError" "bad value") rfl).1

lemma truthyOpt_none : truthyOpt none = false := rfl

lemma tagsOf_append (l₁ l₂ : List Action) :
    tagsOf (l₁ ++ l₂) = tagsOf l₁ ++ tagsOf l₂ := by
  simp [tagsOf, eventsOf, List.filterMap_append]

/-- C6: the regenerate wrapper emits one `fixing_error` event whose payload
is the assembled failure context, then delegates exactly once and passes
the delegate result or exception through unchanged; when code was provided
the payload starts with that code verbatim between the `CODE:` header and
the blank line. -/
theorem c6_regenerate_wrapper {α : Type} (d : Except PyExc α) (code : Option String)
    (error : Option PyExc) (slot : Option String) (ambient : Option ExcInfo) :
    (patched_regenerate_code_after_error d code error slot ambient).1 = d ∧
    (patched_regenerate_code_after_error d code error slot ambient).2 =
      [Action.emit ⟨"fixing_error", some (regenDetail code error slot ambient)⟩,
        Action.callDelegate] ∧
    delegateCalls (patched_regenerate_code_after_error d code error slot ambient).2 = 1 ∧
    (∀ c : String, code = some c → c ≠ "" →
      regenDetail code error slot ambient =
        "CODE:" ++ "\n" ++ c ++ "\n" ++ "\n" ++
          regenDetail none error slot ambient) := by
  refine ⟨rfl, rfl, rfl, ?_⟩
  intro c hcode hcne
  subst hcode
  unfold regenDetail
  rcases hrec : recover_traceback slot ambient error with ⟨tb, dbg⟩
  simp only [hrec]
  unfold mkErrorDetail
  have hct : truthyOpt (some c) = true := truthyOpt_of_ne_empty c hcne
  rw [hct, truthyOpt_none]
  simp only [if_true, Bool.false_eq_true, if_false, List.nil_append,
    List.cons_append, List.append_assoc, Option.getD_some]
  rw [intercalate_cons_cons "\n" "CODE:" _ (by simp),
    intercalate_cons_cons "\n" c _ (by simp),
    intercalate_cons_cons "\n" "" _ (by simp)]
  simp only [String.append_assoc, String.empty_append]

/-- Witness for C6 at a concrete failing execution: the payload equals the
code section followed by the payload built without code. -/
theorem c6_regenerate_witness :
    regenDetail (some "df.sum()") (some (PyExc.plain "TypeError" "bad axis"))
        (some "TRACE") none =
      "CODE:" ++ "\n" ++ "df.sum()" ++ "\n" ++ "\n" ++
        regenDetail none (some (PyExc.plain "TypeError" "bad axis"))
          (some "TRACE") none :=
  (c6_regenerate_wrapper (Except.ok (0 : Nat)) (some "df.sum()")
    (some (PyExc.plain "TypeError" "bad axis")) (some "TRACE") none).2.2.2
    "df.sum()" rfl (by decide)

lemma tagsOf_flatten_regen (l : List (Except PyExc String)) (code : Option String)
    (error : Option PyExc) (slot : Option String) (ambient : Option ExcInfo) :
    tagsOf ((l.map fun d =>
        (patched_regenerate_code_after_error d code error slot ambient).2).flatten) =
      l.map fun _ => "fixing_error" := by
  induction l with
  | nil => rfl
  | cons a t ih =>
    simp only [List.map_cons, List.flatten_cons, tagsOf_append, ih]
    rfl

lemma count_map_const_ne (t : String) (l : List (Except PyExc String))
    (h : t ≠ "fixing_error") :
    ((l.map fun _ => "fixing_error").count t) = 0 := by
  refine List.count_eq_zero.mpr fun hmem => ?_
  rcases List.mem_map.mp hmem with ⟨x, -, hx⟩
  exact h hx.symm

/-- C7: the event tags of a whole query-answering cycle, for every behavior
of the delegates: a successful cycle emits exactly the four tags in order;
a failed generation stops after `generating_code`; a failed execution emits
the first three tags and then one `fixing_error` per regeneration attempt;
the four non-recurring tags each appear at most once in every case. -/
lemma cycle_tags_eq (genD : Except PyExc String)
    (execD : String → Except PyExc String) (regenD : List (Except PyExc String))
    (ambient : Option ExcInfo) :
    tagsOf (cycleActions genD execD regenD ambient) =
      (match genD with
       | .error _ => ["generating_code"]
       | .ok c =>
         match execD c with
         | .ok _ => ["generating_code", "code_generated", "executing_code", "code_executed"]
         | .error _ =>
           ["generating_code", "code_generated", "executing_code"] ++
             regenD.map fun _ => "fixing_error") := by
  cases hg : genD with
  | error e => simp [cycleActions, patched_generate_code, tagsOf, eventsOf]
  | ok c =>
    cases hx : execD c with
    | ok r =>
      simp [cycleActions, hx, patched_generate_code, patched_execute_code,
        tagsOf_append, tagsOf, eventsOf]
    | error e =>
      simp only [cycleActions, hx, patched_generate_code, patched_execute_code]
      rw [tagsOf_append, tagsOf_append, tagsOf_flatten_regen]
      rfl

lemma cycle_count_le_one (genD : Except PyExc String)
    (execD : String → Except PyExc String) (regenD : List (Except PyExc String))
    (ambient : Option ExcInfo) (t : String) (h : t ≠ "fixing_error") :
    (tagsOf (cycleActions genD execD regenD ambient)).count t ≤ 1 := by
  rw [cycle_tags_eq]
  cases genD with
  | error e =>
    show (["generating_code"] : List String).count t ≤ 1
    exact List.nodup_iff_count_le_one.mp (by decide) t
  | ok c =>
    show (match execD c with
      | .ok _ => ["generating_code", "code_generated", "executing_code", "code_executed"]
      | .error _ =>
        ["generating_code", "code_generated", "executing_code"] ++
          regenD.map fun _ => "fixing_error").count t ≤ 1
    cases hx : execD c with
    | ok r =>
      exact List.nodup_iff_count_le_one.mp
        (by decide : (["generating_code", "code_generated", "executing_code",
          "code_executed"] : List String).Nodup) t
    | error e =>
      rw [List.count_append, count_map_const_ne t regenD h]
      have hc := List.nodup_iff_count_le_one.mp
        (by decide : (["generating_code", "code_generated",
          "executing_code"] : List String).Nodup) t
      omega

theorem c7_cycle_event_order (genD : Except PyExc String)
    (execD : String → Except PyExc String) (regenD : List (Except PyExc String))
    (ambient : Option ExcInfo) :
    tagsOf (cycleActions genD execD regenD ambient) =
      (match genD with
       | .error _ => ["generating_code"]
       | .ok c =>
         match execD c with
         | .ok _ => ["generating_code", "code_generated", "executing_code", "code_executed"]
         | .error _ =>
           ["generating_code", "code_generated", "executing_code"] ++
             regenD.map fun _ => "fixing_error") ∧
    (tagsOf (cycleActions genD execD regenD ambient)).count "generating_code" ≤ 1 ∧
    (tagsOf (cycleActions genD execD regenD ambient)).count "code_generated" ≤ 1 ∧
    (tagsOf (cycleActions genD execD regenD ambient)).count "executing_code" ≤ 1 ∧
    (tagsOf (cycleActions genD execD regenD ambient)).count "code_executed" ≤ 1 :=
  ⟨cycle_tags_eq genD execD regenD ambient,
    cycle_count_le_one genD execD regenD ambient _ (by decide),
    cycle_count_le_one genD execD regenD ambient _ (by decide),
    cycle_count_le_one genD execD regenD ambient _ (by decide),
    cycle_count_le_one genD execD regenD ambient _ (by decide)⟩

lemma except_bind_ok {α β : Type} (a : α) (f : α → Except PyExc β) :
    (Except.ok a : Except PyExc α) >>= f = f a := rfl

lemma except_bind_error {α β : Type} (e : PyExc) (f : α → Except PyExc β) :
    (Except.error e : Except PyExc α) >>= f = Except.error e := rfl

lemma except_pure_eq {α : Type} (a : α) : (pure a : Except PyExc α) = Except.ok a := rfl

lemma ambient_tb_none {i : ExcInfo} (h : hasAmbientTb (some i) = false) : i.tb = none := by
  cases hit : i.tb with
  | none => rfl
  | some t => rw [hasAmbientTb, hit] at h; cases h

/-- C4: the recovery chain consults its sources in the fixed order slot,
ambient exception state, chained cause, own traceback, bare rendering; the
first source with a non-empty trace wins and its identity is recorded in
the debug line accompanying the trace (`captured` for the slot, `cause` for
the chained cause). -/
theorem c4_recovery_source_order (slot : Option String) (ambient : Option ExcInfo)
    (error : Option PyExc) :
    (truthyOpt slot = true →
      recover_traceback slot ambient error =
        (slot, ["Source: captured from execute_code"])) ∧
    (truthyOpt slot = false → ∀ (i : ExcInfo) (t : String),
      ambient = some i → i.tb = some t →
      recover_traceback slot ambient error =
        (some (format_exception i.ty i.msg t), ["Source: sys.exc_info()"])) ∧
    (truthyOpt slot = false → hasAmbientTb ambient = false →
      ∀ (e c : PyExc) (t : String), error = some e →
        getattr_cause e = Except.ok (some c) → getattr_tb c = Except.ok (some t) →
        recover_traceback slot ambient error =
          (some (format_exception c.ty c.msg t),
           ["Source: error.__cause__ (" ++ c.ty ++ ")"])) ∧
    (truthyOpt slot = false → hasAmbientTb ambient = false →
      ∀ (e : PyExc) (t : String), error = some e →
        getattr_cause e = Except.ok none → getattr_tb e = Except.ok (some t) →
        recover_traceback slot ambient error =
          (some (format_exception e.ty e.msg t),
           ["Source: error.__traceback__ (" ++ e.ty ++ ")"])) ∧
    (truthyOpt slot = false → hasAmbientTb ambient = false →
      ∀ e : PyExc, error = some e →
        getattr_cause e = Except.ok none → getattr_tb e = Except.ok none →
        recover_traceback slot ambient error =
          (some (e.ty ++ ": " ++ e.msg),
           ["Source: str(error) only - no traceback available"])) := by
  refine ⟨?_, ?_, ?_, ?_, ?_⟩
  · intro h1
    simp [recover_traceback, h1]
  · intro h1 i t hi ht
    subst hi
    simp [recover_traceback, h1, ht, truthyOpt_none, truthy_format_exception]
  · intro h1 h2 e c t he hc ht
    subst he
    have h3 : method3body e =
        Except.ok (some (format_exception c.ty c.msg t,
          "Source: error.__cause__ (" ++ c.ty ++ ")")) := by
      simp [method3body, hc, ht, except_bind_ok, except_pure_eq]
    rcases ambient with _ | i
    · simp [recover_traceback, h1, truthyOpt_none, h3, pyTry, except_bind_ok,
        except_pure_eq, truthy_format_exception]
    · have hit : i.tb = none := ambient_tb_none h2
      simp [recover_traceback, h1, truthyOpt_none, hit, h3, pyTry, except_bind_ok,
        except_pure_eq, truthy_format_exception]
  · intro h1 h2 e t he hc ht
    subst he
    have h3 : method3body e = Except.ok none := by
      simp [method3body, hc, except_bind_ok, except_pure_eq]
    have h4 : method4body e =
        Except.ok (some (format_exception e.ty e.msg t,
          "Source: error.__traceback__ (" ++ e.ty ++ ")")) := by
      simp [method4body, ht, except_bind_ok, except_pure_eq]
    rcases ambient with _ | i
    · simp [recover_traceback, h1, truthyOpt_none, h3, h4, pyTry, except_bind_ok,
        except_pure_eq, truthy_format_exception]
    · have hit : i.tb = none := ambient_tb_none h2
      simp [recover_traceback, h1, truthyOpt_none, hit, h3, h4, pyTry,
        except_bind_ok, except_pure_eq, truthy_format_exception]
  · intro h1 h2 e he hc ht
    subst he
    have h3 : method3body e = Except.ok none := by
      simp [method3body, hc, except_bind_ok, except_pure_eq]
    have h4 : method4body e = Except.ok none := by
      simp [method4body, ht, except_bind_ok, except_pure_eq]
    rcases ambient with _ | i
    · simp [recover_traceback, h1, truthyOpt_none, h3, h4, pyTry, except_bind_ok,
        except_pure_eq]
    · have hit : i.tb = none := ambient_tb_none h2
      simp [recover_traceback, h1, truthyOpt_none, hit, h3, h4, pyTry,
        except_bind_ok, except_pure_eq]

/-- Witness for C4: with only the slot populated the recovery returns the
slot value and records the captured-from-execute provenance. -/
theorem c4_recovery_witness :
    recover_traceback (some "TRACE0") none none =
      (some "TRACE0", ["Source: captured from execute_code"]) :=
  (c4_recovery_source_order (some "TRACE0") none none).1 (by decide)

/-- C5: the recovery procedure and the wrapper around it never raise: the
wrapper only fails when its delegate does, a misbehaving error object whose
both trace attributes raise still falls through to the bare rendering with
the failures noted, and with all five sources empty the assembled failure
context carries the literal Unknown error text. -/
theorem c5_recovery_never_raises {α : Type} (d : Except PyExc α)
    (slot : Option String) (ambient : Option ExcInfo) (error : Option PyExc) :
    (∀ code : Option String,
      (patched_regenerate_code_after_error d code error slot ambient).1 = d) ∧
    (∀ ty msg tyc msgc tyt msgt : String,
      recover_traceback none none
          (some (PyExc.mk ty msg (GetAttr.raises tyt msgt) (GetAttr.raises tyc msgc))) =
        (some (ty ++ ": " ++ msg),
         ["__cause__ failed: " ++ msgc, "__traceback__ failed: " ++ msgt,
          "Source: str(error) only - no traceback available"])) ∧
    (truthyOpt slot = false → hasAmbientTb ambient = false → error = none →
      recover_traceback slot ambient error = (none, []) ∧
      regenDetail none error slot ambient = "ERROR:\nUnknown error") := by
  refine ⟨fun _ => rfl, fun ty msg tyc msgc tyt msgt => rfl, ?_⟩
  intro h1 h2 he
  subst he
  have hrec : recover_traceback slot ambient none = (none, []) := by
    rcases ambient with _ | i
    · simp [recover_traceback, h1, truthyOpt_none]
    · have hit : i.tb = none := ambient_tb_none h2
      simp [recover_traceback, h1, truthyOpt_none, hit]
  refine ⟨hrec, ?_⟩
  unfold regenDetail
  rw [hrec]
  rfl

/-- Witness for C5 with every source empty: the detail text is the literal
Unknown error section. -/
theorem c5_recovery_witness :
    regenDetail none none none none = "ERROR:\nUnknown error" :=
  ((c5_recovery_never_raises (Except.ok (0 : Nat)) none none none).2.2
    rfl rfl rfl).2

lemma str_beq_false {a b : String} (h : a ≠ b) : (a == b) = false := by
  cases hh : a == b with
  | false => rfl
  | true => exact absurd (beq_iff_eq.mp hh) h

lemma attrSet_keys_of_hasKey (k : String) (v : PyVal) (A : List (String × PyVal))
    (h : hasKey k A = true) :
    (attrSet k v A).map Prod.fst = A.map Prod.fst := by
  induction A with
  | nil => simp [hasKey] at h
  | cons kv rest ih =>
    cases hh : kv.1 == k with
    | true => simp [attrSet, hh]
    | false =>
      have hr : hasKey k rest = true := by
        rw [hasKey, hh] at h
        simpa using h
      simp [attrSet, hh, ih hr]

lemma attrLookup_attrSet_self (k : String) (v : PyVal) (A : List (String × PyVal))
    (h : hasKey k A = true) :
    attrLookup k (attrSet k v A) = some v := by
  induction A with
  | nil => simp [hasKey] at h
  | cons kv rest ih =>
    cases hh : kv.1 == k with
    | true => simp [attrSet, attrLookup, hh]
    | false =>
      have hr : hasKey k rest = true := by
        rw [hasKey, hh] at h
        simpa using h
      simp [attrSet, attrLookup, hh, ih hr]

lemma attrLookup_attrSet_ne (j k : String) (v : PyVal) (A : List (String × PyVal))
    (hne : j ≠ k) :
    attrLookup j (attrSet k v A) = attrLookup j A := by
  induction A with
  | nil => simp [attrSet, attrLookup, str_beq_false (Ne.symm hne)]
  | cons kv rest ih =>
    cases hh : kv.1 == k with
    | true =>
      have hkj : (kv.1 == j) = false :=
        str_beq_false fun hx => hne (hx.symm.trans (beq_iff_eq.mp hh))
      simp [attrSet, attrLookup, hh, hkj]
    | false =>
      simp [attrSet, attrLookup, hh, ih]

lemma hasKey_eq_any (k : String) (A : List (String × PyVal)) :
    hasKey k A = (A.map Prod.fst).any fun s => s == k := by
  induction A with
  | nil => rfl
  | cons kv rest ih => simp [hasKey, ih]

lemma hasKey_of_keys_eq {A B : List (String × PyVal)}
    (h : A.map Prod.fst = B.map Prod.fst) (k : String) :
    hasKey k A = hasKey k B := by
  rw [hasKey_eq_any, hasKey_eq_any, h]

lemma kwLookup_eq_none_of_not_mem (k : String) (l : List (String × PyVal))
    (h : ¬ k ∈ l.map Prod.fst) : kwLookup k l = none := by
  induction l with
  | nil => rfl
  | cons kv rest ih =>
    have h1 : kv.1 ≠ k := fun hh =>
      h (List.mem_map.mpr ⟨kv, List.mem_cons_self kv rest, hh⟩)
    have h2 : ¬ k ∈ rest.map Prod.fst := fun hm =>
      h (by simpa using Or.inr (by simpa using hm))
    have h3 : attrLookup k rest = none := by simpa [kwLookup] using ih h2
    simp [kwLookup, attrLookup, str_beq_false h1, h3]

lemma kwLookup_cons_self (kv : String × PyVal) (rest : List (String × PyVal)) :
    kwLookup kv.1 (kv :: rest) = some kv.2 := by
  simp [kwLookup, attrLookup]

lemma kwLookup_cons_ne (k : String) (kv : String × PyVal)
    (rest : List (String × PyVal)) (h : k ≠ kv.1) :
    kwLookup k (kv :: rest) = kwLookup k rest := by
  simp [kwLookup, attrLookup, str_beq_false (Ne.symm h)]

lemma readonly_contains_eq (k : String) :
    webllmReadOnlyProps.contains k = (k == "type") := by
  by_cases h : k = "type"
  · simp [webllmReadOnlyProps, h]
  · simp [webllmReadOnlyProps, h, str_beq_false h]

lemma initFold_characterization (kwargs : List (String × PyVal)) :
    ∀ A : List (String × PyVal),
      A.map Prod.fst = webllmClassAttrs.map Prod.fst →
      (∀ kv ∈ kwargs, kv.1 ≠ "type") →
      (kwargs.map Prod.fst).Nodup →
      ∃ A2, (kwargs.foldlM
          (fun attrs kv =>
            if pyHasattr attrs kv.1 then pySetattr attrs kv.1 kv.2
            else Except.ok attrs)
          A) = Except.ok A2 ∧
        A2.map Prod.fst = webllmClassAttrs.map Prod.fst ∧
        ∀ k : String, attrLookup k A2 =
          ((if webllmSettable k then kwLookup k kwargs else none).orElse
            fun _ => attrLookup k A) := by
  induction kwargs with
  | nil =>
    intro A hkeys _ _
    refine ⟨A, rfl, hkeys, fun k => ?_⟩
    cases webllmSettable k <;> simp [kwLookup, attrLookup, Option.orElse]
  | cons kv rest ih =>
    intro A hkeys hty hnd
    have hty0 : kv.1 ≠ "type" := hty kv (List.mem_cons_self kv rest)
    have htyrest : ∀ x ∈ rest, x.1 ≠ "type" := fun x hx => hty x (List.mem_cons_of_mem kv hx)
    have hndrest : (rest.map Prod.fst).Nodup := (List.nodup_cons.mp (by simpa using hnd)).2
    have hnotmem : ¬ kv.1 ∈ rest.map Prod.fst := (List.nodup_cons.mp (by simpa using hnd)).1
    have htype_contains : (webllmReadOnlyProps.contains kv.1) = false := by
      rw [readonly_contains_eq]
      exact str_beq_false hty0
    have hkeyA : hasKey kv.1 A = webllmSettable kv.1 := hasKey_of_keys_eq hkeys kv.1
    cases hset : webllmSettable kv.1 with
    | true =>
      have hcontains : hasKey kv.1 A = true := hkeyA.trans hset
      have hstep : (if pyHasattr A kv.1 then pySetattr A kv.1 kv.2
          else Except.ok A) = Except.ok (attrSet kv.1 kv.2 A) := by
        unfold pyHasattr pySetattr
        rw [hcontains, htype_contains]
        rfl
      obtain ⟨A2, hfold, hkeys2, hlook⟩ := ih (attrSet kv.1 kv.2 A)
        (by rw [attrSet_keys_of_hasKey kv.1 kv.2 A hcontains]; exact hkeys)
        htyrest hndrest
      refine ⟨A2, ?_, hkeys2, fun k => ?_⟩
      · rw [List.foldlM_cons, hstep]
        simpa using hfold
      · rw [hlook k]
        by_cases hk : k = kv.1
        · rw [hk, hset, kwLookup_eq_none_of_not_mem kv.1 rest hnotmem,
            kwLookup_cons_self kv rest,
            attrLookup_attrSet_self kv.1 kv.2 A hcontains]
          simp [Option.orElse]
        · rw [kwLookup_cons_ne k kv rest hk, attrLookup_attrSet_ne k kv.1 kv.2 A hk]
    | false =>
      have hstep : (if pyHasattr A kv.1 then pySetattr A kv.1 kv.2
          else Except.ok A) = Except.ok A := by
        unfold pyHasattr
        rw [hkeyA, hset, htype_contains]
        rfl
      obtain ⟨A2, hfold, hkeys2, hlook⟩ := ih A hkeys htyrest hndrest
      refine ⟨A2, ?_, hkeys2, fun k => ?_⟩
      · rw [List.foldlM_cons, hstep]
        simpa using hfold
      · rw [hlook k]
        by_cases hk : k = kv.1
        · rw [hk, hset]
          simp
        · rw [kwLookup_cons_ne k kv rest hk]

/-- C10 counterexample: the claim says construction succeeds for every set
of keyword arguments, but the keyword `type` names the read-only property,
so `hasattr` is true, `setattr` raises `AttributeError`, and construction
fails. -/
theorem c10_init_counterexample :
    (WebLLM.init [("type", PyVal.vstr "x")]).isOk = false ∧
    (match WebLLM.init [("type", PyVal.vstr "x")] with
     | .error e => e.ty
     | .ok _ => "") = "AttributeError" :=
  ⟨rfl, rfl⟩

/-- C10 amended: construction succeeds for every keyword-argument dict none
of whose keys is the read-only property `type`; a keyword matching one of
the settable attributes (`model`, `temperature`, or the `call` method)
overwrites it, and every other keyword is silently ignored, leaving the
remaining attributes at their class defaults. -/
theorem c10_init_amended (kwargs : List (String × PyVal))
    (hty : ∀ kv ∈ kwargs, kv.1 ≠ "type")
    (hnd : (kwargs.map Prod.fst).Nodup) :
    ∃ A, WebLLM.init kwargs = Except.ok A ∧
      A.map Prod.fst = webllmClassAttrs.map Prod.fst ∧
      ∀ k : String, attrLookup k A =
        ((if webllmSettable k then kwLookup k kwargs else none).orElse
          fun _ => attrLookup k webllmClassAttrs) :=
  initFold_characterization kwargs webllmClassAttrs rfl hty hnd

/-- Witness for the amended C10: a model override plus an unknown keyword
construct successfully. -/
theorem c10_init_witness :
    (WebLLM.init [("model", PyVal.vstr "m2"), ("junk", PyVal.vnum 7)]).isOk = true := by
  obtain ⟨A, hA, -, -⟩ := c10_init_amended
    [("model", PyVal.vstr "m2"), ("junk", PyVal.vnum 7)] (by decide) (by decide)
  rw [hA]
  rfl

end PandasaiLoader
